import Mathlib

/-!
Shallow embedding of the Time Capsule application (`src/app.py`) and proofs
about its capsule store, crypto codec, scheduler registration, dispatcher
and intake paths.

Modelling conventions:
* Bytes are `List Nat` (each entry one byte of the real byte string; the
  length prefixes produced by the serializer are likewise single entries).
* The ambient nondeterminism of the Python code (the current clock reading,
  the random Fernet IV, whether a file write succeeds) is passed in
  explicitly through environment records.
* `cryptography.fernet.Fernet` is external library code.  It is modelled at
  the token level, faithful to the Fernet token format: a version byte, the
  timestamp drawn at encryption time, the random IV drawn at encryption
  time, the ciphertext of the payload under a key-and-IV-determined
  keystream, and a key-dependent authentication tag over the token body.
  The properties the development relies on — decryption inverts encryption
  for every drawn (timestamp, IV); the IV is embedded verbatim in the token,
  so tokens from different IVs differ; decryption of a malformed token
  fails — are properties of the real Fernet construction.
* `json.dumps` / `json.loads`, restricted to the capsule records the
  application serializes (flat records of strings, a string list, and an
  optional string), are modelled as an injective byte serialization with a
  total parser that inverts it, mirroring the lossless round trip that
  `json` provides for these records.
-/

namespace TimeCapsule

/-- One capsule record, as built by `save_encrypted_capsule` in
`src/app.py` (lines 127-136): the eight creation-time fields plus the
`sent_at` field that `update_capsule_status` adds later (absent — `none` —
until a status update). -/
structure CapsuleData where
  recipient_email : String
  message : String
  unlock_date : String
  unlock_time : String
  files : List String
  created_at : String
  job_id : String
  status : String
  sent_at : Option String := none
deriving Repr, DecidableEq

/-! ### Serialization (model of `json.dumps` / `json.loads` on capsule records) -/

/-- Serialize one string: a length prefix followed by the code points. -/
def encStr (s : String) : List Nat :=
  s.data.length :: s.data.map Char.toNat

/-- Serialize a list of strings back to back (the count travels separately). -/
def encStrList : List String → List Nat
  | [] => []
  | s :: ss => encStr s ++ encStrList ss

/-- Serialize an optional string with a presence tag (JSON key absent vs present). -/
def encOptStr : Option String → List Nat
  | none => [0]
  | some s => 1 :: encStr s

/-- Parse one length-prefixed string, returning it and the remaining bytes. -/
def decStr : List Nat → Option (String × List Nat)
  | [] => none
  | n :: rest =>
    if n ≤ rest.length then
      some (String.mk ((rest.take n).map Char.ofNat), rest.drop n)
    else none

/-- Parse `n` consecutive strings. -/
def decStrs : Nat → List Nat → Option (List String × List Nat)
  | 0, r => some ([], r)
  | n + 1, r =>
    match decStr r with
    | none => none
    | some (s, r1) =>
      match decStrs n r1 with
      | none => none
      | some (ss, r2) => some (s :: ss, r2)

/-- Parse an optional string from its presence tag. -/
def decOptStr : List Nat → Option (Option String × List Nat)
  | 0 :: r => some (none, r)
  | 1 :: r =>
    match decStr r with
    | none => none
    | some (s, r1) => some (some s, r1)
  | _ => none

/-- Model of `json.dumps(capsule_data)`: the fields in the order the dict is
built in `save_encrypted_capsule`, each length-prefixed. -/
def serializeCapsule (d : CapsuleData) : List Nat :=
  encStr d.recipient_email ++ (encStr d.message ++ (encStr d.unlock_date ++
    (encStr d.unlock_time ++ ((d.files.length :: encStrList d.files) ++
    (encStr d.created_at ++ (encStr d.job_id ++ (encStr d.status ++
    encOptStr d.sent_at)))))))

/-- Model of `json.loads` on a serialized capsule record: parses the fields
back and requires the whole input to be consumed. -/
def deserializeCapsule (bs : List Nat) : Option CapsuleData :=
  match decStr bs with
  | none => none
  | some (re, r1) =>
    match decStr r1 with
    | none => none
    | some (me, r2) =>
      match decStr r2 with
      | none => none
      | some (ud, r3) =>
        match decStr r3 with
        | none => none
        | some (ut, r4) =>
          match r4 with
          | [] => none
          | nf :: r4' =>
            match decStrs nf r4' with
            | none => none
            | some (fs, r5) =>
              match decStr r5 with
              | none => none
              | some (ca, r6) =>
                match decStr r6 with
                | none => none
                | some (ji, r7) =>
                  match decStr r7 with
                  | none => none
                  | some (st, r8) =>
                    match decOptStr r8 with
                    | some (sa, []) =>
                      some ⟨re, me, ud, ut, fs, ca, ji, st, sa⟩
                    | _ => none

theorem decStr_encStr (s : String) (r : List Nat) :
    decStr (encStr s ++ r) = some (s, r) := by
  have hle : s.data.length ≤ (s.data.map Char.toNat ++ r).length := by
    simp [List.length_append, List.length_map]
  have htake : ((s.data.map Char.toNat ++ r).take s.data.length).map Char.ofNat
      = s.data := by
    rw [show s.data.length = (s.data.map Char.toNat).length by simp,
      List.take_left, List.map_map]
    exact List.map_congr_left (fun c _ => Char.ofNat_toNat c) |>.trans
      (List.map_id _)
  have hdrop : (s.data.map Char.toNat ++ r).drop s.data.length = r := by
    rw [show s.data.length = (s.data.map Char.toNat).length by simp,
      List.drop_left]
  simp only [encStr, List.cons_append, decStr, hle, if_pos, htake, hdrop]

theorem decStrs_encStrList (fs : List String) (r : List Nat) :
    decStrs fs.length (encStrList fs ++ r) = some (fs, r) := by
  induction fs generalizing r with
  | nil => simp [encStrList, decStrs]
  | cons s ss ih =>
    simp [encStrList, decStrs, List.append_assoc, decStr_encStr, ih]

theorem decOptStr_encOptStr (o : Option String) (r : List Nat) :
    decOptStr (encOptStr o ++ r) = some (o, r) := by
  cases o with
  | none => simp [encOptStr, decOptStr]
  | some s => simp [encOptStr, decOptStr, decStr_encStr]

/-- The serialization of a capsule record is lossless, like `json` on these
flat string records. -/
theorem deserialize_serialize (d : CapsuleData) :
    deserializeCapsule (serializeCapsule d) = some d := by
  cases d with
  | mk re me ud ut fs ca ji st sa =>
    have h0 : encOptStr sa = encOptStr sa ++ [] := by simp
    simp only [serializeCapsule, deserializeCapsule, decStr_encStr,
      List.cons_append, List.append_assoc, decStrs_encStrList]
    rw [h0, decOptStr_encOptStr]

/-! ### Crypto codec (model of `cryptography.fernet.Fernet`, `src/app.py` lines 71-75)

The app derives one process-wide key from the configured secret
(`base64.urlsafe_b64encode(hashlib.sha256(ENCRYPTION_KEY).digest())`) and
builds one `Fernet` cipher from it.  The key derivation is modelled as a
deterministic digest of the secret's bytes; the only property used is that
the same secret yields the same key on every process start. -/

/-- Model of a fixed-width cryptographic digest: a fold of the input bytes.
Stands in for `hashlib.sha256` (key derivation) and for the HMAC-SHA256 tag
of the Fernet token; the properties used are determinism and dependence on
key and content. -/
def digestModel (bs : List Nat) : Nat :=
  bs.foldl (fun a b => (a * 31 + b + 1) % 4294967296) 7

/-- Bytes of a string (code points, as in UTF-8 up to the byte split). -/
def strBytes (s : String) : List Nat :=
  s.data.map Char.toNat

/-- The configured secret, `os.getenv("ENCRYPTION_SECRET", "dev-secret")`
at its default. -/
def ENCRYPTION_KEY : List Nat := strBytes "dev-secret"

/-- The derived Fernet key (`cipher_key` in `src/app.py`), one fixed value
per process start, a deterministic function of the secret. -/
def cipher_key : List Nat := [digestModel ENCRYPTION_KEY]

/-- Keystream byte at position `i` under `key` and the token's IV: model of
the AES layer of Fernet as an invertible (XOR) keyed stream. -/
def ksByte (key : List Nat) (iv i : Nat) : Nat :=
  (digestModel key + iv * 131 + i * 17) % 256

/-- The keystream of length `n`. -/
def keystream (key : List Nat) (iv n : Nat) : List Nat :=
  (List.range n).map (ksByte key iv)

/-- Authentication tag over a token body: model of the HMAC-SHA256 field of
the Fernet token. -/
def macTag (key body : List Nat) : Nat :=
  digestModel (key ++ body)

/-- Model of `Fernet.encrypt`: the token is the version byte `0x80`, the
timestamp drawn at call time, the random IV drawn at call time, the
ciphertext of the payload, and the tag over the body.  `ts` and `iv` are the
call-time random/clock draws, passed explicitly. -/
def fernetEncrypt (key : List Nat) (ts iv : Nat) (pt : List Nat) : List Nat :=
  let ct := List.zipWith Nat.xor pt (keystream key iv pt.length)
  (128 :: ts :: iv :: ct) ++ [macTag key (128 :: ts :: iv :: ct)]

/-- Model of `Fernet.decrypt`: checks the token structure and the tag, then
inverts the keystream.  Returns `none` (the `InvalidToken` exception) on a
malformed token or a tag mismatch. -/
def fernetDecrypt (key : List Nat) (token : List Nat) : Option (List Nat) :=
  match token with
  | 128 :: ts :: iv :: rest =>
    if rest = [] then none
    else
      let ct := rest.dropLast
      if macTag key (128 :: ts :: iv :: ct) = rest.getLastD 0 then
        some (List.zipWith Nat.xor ct (keystream key iv ct.length))
      else none
  | _ => none

theorem zipWith_xor_zipWith_xor (p ks : List Nat) (h : p.length ≤ ks.length) :
    List.zipWith Nat.xor (List.zipWith Nat.xor p ks) ks = p := by
  induction p generalizing ks with
  | nil => simp
  | cons a p' ih =>
    cases ks with
    | nil => simp at h
    | cons b ks' =>
      simp only [List.zipWith_cons_cons, List.cons.injEq]
      exact ⟨Nat.xor_cancel_right b a, ih ks' (by simpa using h)⟩

theorem fernetDecrypt_token (key : List Nat) (ts iv : Nat) (ct : List Nat) :
    fernetDecrypt key
        (128 :: ts :: iv :: (ct ++ [macTag key (128 :: ts :: iv :: ct)]))
      = some (List.zipWith Nat.xor ct (keystream key iv ct.length)) := by
  have hne : ct ++ [macTag key (128 :: ts :: iv :: ct)] ≠ [] := by simp
  simp only [fernetDecrypt, if_neg hne, List.dropLast_concat,
    List.getLastD_concat, if_pos rfl, if_true, eq_self_iff_true]

/-- Fernet decryption inverts Fernet encryption for every drawn timestamp
and IV. -/
theorem fernetDecrypt_fernetEncrypt (key : List Nat) (ts iv : Nat)
    (pt : List Nat) :
    fernetDecrypt key (fernetEncrypt key ts iv pt) = some pt := by
  have hlen : (List.zipWith Nat.xor pt (keystream key iv pt.length)).length
      = pt.length := by
    simp [keystream]
  have h := fernetDecrypt_token key ts iv
    (List.zipWith Nat.xor pt (keystream key iv pt.length))
  simp only [fernetEncrypt, List.cons_append, List.nil_append] at *
  rw [h, hlen]
  exact congrArg some (zipWith_xor_zipWith_xor _ _ (by simp [keystream]))

/-! ### Codec wrappers (`encrypt_capsule_data` / `decrypt_capsule_data`,
`src/app.py` lines 101-119)

In the Python code both wrappers catch exceptions and return `None`.  For
the records the application encrypts, `json.dumps` and `Fernet.encrypt`
never raise, so `encrypt_capsule_data` is total here; `decrypt_capsule_data`
is genuinely fallible (`InvalidToken`, bad JSON) and returns an `Option`.
The clock and IV drawn inside `Fernet.encrypt` are the explicit `ts`/`iv`
arguments. -/

/-- Model of `encrypt_capsule_data`: `json.dumps` then `cipher.encrypt`. -/
def encrypt_capsule_data (ts iv : Nat) (capsule_data : CapsuleData) :
    List Nat :=
  fernetEncrypt cipher_key ts iv (serializeCapsule capsule_data)

/-- Model of `decrypt_capsule_data`: `cipher.decrypt` then `json.loads`,
with any failure surfaced as `none` (the Python function returns `None`). -/
def decrypt_capsule_data (encrypted_data : List Nat) : Option CapsuleData :=
  match fernetDecrypt cipher_key encrypted_data with
  | none => none
  | some bs => deserializeCapsule bs

/-- The codec round trip: decrypting an encryption returns the record
unchanged, whatever timestamp and IV the encryption drew. -/
theorem decrypt_encrypt_capsule_data (ts iv : Nat) (d : CapsuleData) :
    decrypt_capsule_data (encrypt_capsule_data ts iv d) = some d := by
  simp only [encrypt_capsule_data, decrypt_capsule_data,
    fernetDecrypt_fernetEncrypt, deserialize_serialize]

/-! ### Application state

The mutable world the claims talk about: the upload folder, the capsule
folder (one encrypted object per capsule file name), and the APScheduler
job table.  Instants are naturals on a single timeline: the code anchors
both the unlock instant and "now" to the fixed `Asia/Kolkata` zone, so one
totally ordered timeline is faithful. -/

/-- The filesystem and scheduler state the application mutates. -/
structure AppState where
  /-- Paths of files currently present in the upload folder. -/
  uploads : List String
  /-- The capsule folder: file name (`capsule_<job_id>.enc`) to encrypted
  bytes. -/
  capsules : List (String × List Nat)
  /-- The durable scheduler's job table: `job_id` to fire instant. -/
  jobs : List (String × Nat)
deriving Repr, DecidableEq

/-- Write (create or overwrite) one object in the capsule folder. -/
def setStore (store : List (String × List Nat)) (name : String)
    (v : List Nat) : List (String × List Nat) :=
  store.filter (fun e => e.1 ≠ name) ++ [(name, v)]

/-- Read one object from the capsule folder (`none` = no such file). -/
def lookupStore (store : List (String × List Nat)) (name : String) :
    Option (List Nat) :=
  (store.find? (fun e => e.1 == name)).map (fun e => e.2)

/-- Look up a job's fire instant in the scheduler's table. -/
def lookupJob (jobs : List (String × Nat)) (id : String) : Option Nat :=
  (jobs.find? (fun e => e.1 == id)).map (fun e => e.2)

/-- Modelled from the spec: the Durable Scheduler's
`schedule(job_id, fire_at, ...) -> ok | DuplicateJobError` operation, the
part of APScheduler's `add_job(..., id=job_id, replace_existing=False)`
(`src/app.py` lines 402-416) that is not repository code.  Per the spec it
"registers a one-shot (non-repeating) timer" and "fails (does not
overwrite) if `job_id` already has a pending entry — schedules are
create-once"; `none` is the `ConflictingIdError` / `DuplicateJobError`
outcome. -/
def addJob (jobs : List (String × Nat)) (id : String) (fire : Nat) :
    Option (List (String × Nat)) :=
  if jobs.any (fun e => e.1 == id) then none
  else some (jobs ++ [(id, fire)])

/-- The capsule file name for a job id (`f"capsule_{job_id}.enc"`). -/
def capsuleName (job_id : String) : String :=
  "capsule_" ++ job_id ++ ".enc"

/-! ### Capsule store operations (`src/app.py` lines 122-191) -/

/-- Creation-time environment: the ambient values the Python code draws
while handling one request. -/
structure CreateEnv where
  /-- The current instant in the configured zone (`datetime.now(ist)`). -/
  now : Nat
  /-- `datetime.now().isoformat()`, the `created_at` string. -/
  nowIso : String
  /-- `datetime.now().timestamp()` as rendered inside the job id. -/
  jobIdTs : String
  /-- The timestamp prefix put on uploaded file names. -/
  fileTs : String
  /-- The timestamp the Fernet layer stamps into the token. -/
  encTs : Nat
  /-- The random IV the Fernet layer draws. -/
  encIv : Nat
  /-- Whether the capsule file write succeeds (the I/O outcome of
  `open(...,"wb").write`); `false` is the `except` path that returns
  `None`. -/
  saveOk : Bool
deriving Repr, DecidableEq

/-- Model of `save_encrypted_capsule`: builds the record with status
`"scheduled"`, encrypts it, writes it to `capsules/capsule_<job_id>.enc`;
returns the saved path, or `none` when the write fails (in which case
nothing is stored). -/
def save_encrypted_capsule (env : CreateEnv) (recipient_email message
    unlock_date unlock_time : String) (files : List String)
    (job_id : String) (st : AppState) : Option String × AppState :=
  let capsule_data : CapsuleData :=
    { recipient_email := recipient_email, message := message,
      unlock_date := unlock_date, unlock_time := unlock_time,
      files := files, created_at := env.nowIso, job_id := job_id,
      status := "scheduled", sent_at := none }
  let encrypted_data := encrypt_capsule_data env.encTs env.encIv capsule_data
  if env.saveOk then
    (some ("capsules/" ++ capsuleName job_id),
      { st with capsules := setStore st.capsules (capsuleName job_id) encrypted_data })
  else (none, st)

/-- Model of `load_encrypted_capsule` on a name in the capsule folder: read
the file and decrypt; `none` for a missing file or a decrypt failure. -/
def load_encrypted_capsule (store : List (String × List Nat))
    (name : String) : Option CapsuleData :=
  match lookupStore store name with
  | none => none
  | some bs => decrypt_capsule_data bs

/-- Model of `update_capsule_status` (`src/app.py` lines 172-191): if the
capsule file exists and decrypts, overwrite `status`, set `sent_at` to the
current time, re-encrypt and overwrite the file; otherwise leave the state
unchanged.  `nowIso`/`encTs`/`encIv` are the clock and IV drawn during the
update. -/
def update_capsule_status (nowIso : String) (encTs encIv : Nat)
    (job_id status : String) (st : AppState) : AppState :=
  match lookupStore st.capsules (capsuleName job_id) with
  | none => st
  | some bs =>
    match decrypt_capsule_data bs with
    | none => st
    | some capsule_data =>
      let capsule_data' :=
        { capsule_data with status := status, sent_at := some nowIso }
      let encrypted_data := encrypt_capsule_data encTs encIv capsule_data'
      { st with capsules := setStore st.capsules (capsuleName job_id) encrypted_data }

/-! ### Dispatcher (`send_time_capsule_email`, `src/app.py` lines 194-310)

The message composition (subject, HTML body) treats the message as opaque
payload and is not mentioned by any claim, so it is not carried in the
state.  The attachment loop attaches exactly the files that exist on disk
at dispatch time (`attached_files`); a missing file is skipped with a
warning.  The SMTP connect/login/send outcome is the explicit `outcome`
argument: `ok` is a completed `send_message`, the other constructors are
`SMTPAuthenticationError`, `SMTPException` and the catch-all `Exception`
handler.  On `ok` the capsule status is updated to "sent" and every
attached file is removed; on any failure the status is updated to "failed"
and no file is removed. -/

/-- Outcome of the SMTP transport interaction inside the `try` block. -/
inductive SendOutcome where
  | ok
  | authError
  | smtpError
  | otherError
deriving Repr, DecidableEq

/-- Dispatch-time environment: the ambient values drawn during one run. -/
structure DispatchEnv where
  /-- Whether `SENDER_EMAIL` and `SENDER_PASSWORD` are both set. -/
  credsSet : Bool
  /-- The clock reading used for `sent_at`. -/
  nowIso : String
  /-- The Fernet timestamp drawn while re-encrypting the record. -/
  encTs : Nat
  /-- The Fernet IV drawn while re-encrypting the record. -/
  encIv : Nat
deriving Repr, DecidableEq

/-- The human-readable result string per outcome. -/
def sendResultMessage : SendOutcome → String
  | .ok => "Email sent successfully"
  | .authError => "Email authentication failed"
  | .smtpError => "SMTP error"
  | .otherError => "Unexpected error"

/-- Model of `send_time_capsule_email`. -/
def send_time_capsule_email (env : DispatchEnv) (outcome : SendOutcome)
    (recipient_email message unlock_date unlock_time : String)
    (files : Option (List String)) (job_id : Option String)
    (st : AppState) : (Bool × String) × AppState :=
  if !env.credsSet then
    ((false, "SMTP credentials not configured!"), st)
  else
    let attached_files :=
      (files.getD []).filter (fun f => f ∈ st.uploads)
    match outcome with
    | .ok =>
      let st1 := match job_id with
        | some j =>
          update_capsule_status env.nowIso env.encTs env.encIv j "sent" st
        | none => st
      let st2 :=
        { st1 with uploads :=
            st1.uploads.filter (fun p => p ∉ attached_files) }
      ((true, sendResultMessage .ok), st2)
    | o =>
      let st1 := match job_id with
        | some j =>
          update_capsule_status env.nowIso env.encTs env.encIv j "failed" st
        | none => st
      ((false, sendResultMessage o), st1)

/-! ### Listing (`list_capsules`, `src/app.py` lines 461-493) -/

/-- One entry of the `/capsules` response: exactly the keys the route puts
in each summary dict — no `message` field. -/
structure CapsuleSummary where
  job_id : String
  recipient : String
  unlock_date : String
  unlock_time : String
  created_at : String
  status : String
  has_files : Bool
  file_count : Nat
deriving Repr, DecidableEq

/-- The summary dict built for one decrypted capsule record. -/
def mkSummary (d : CapsuleData) : CapsuleSummary :=
  { job_id := d.job_id, recipient := d.recipient_email,
    unlock_date := d.unlock_date, unlock_time := d.unlock_time,
    created_at := d.created_at, status := d.status,
    has_files := d.files.length > 0, file_count := d.files.length }

/-- Model of `f.endswith(".enc")`, computed on the file name's code
points. -/
def endsWithEnc (name : String) : Bool :=
  ".enc".data.isSuffixOf name.data

/-- Model of the `/capsules` route body: take the `.enc` files of the
capsule folder, load and decrypt each, and append a summary for each one
that decrypts (`if capsule_data:`); a record that fails to decrypt is
skipped. -/
def list_capsules (store : List (String × List Nat)) : List CapsuleSummary :=
  (store.filter (fun e => endsWithEnc e.1)).filterMap
    (fun e => (decrypt_capsule_data e.2).map mkSummary)

/-! ### Intake (`dashboard` POST, `src/app.py` lines 337-446) -/

/-- The upload extension allow list (`ALLOWED_EXTENSIONS`). -/
def ALLOWED_EXTENSIONS : List String :=
  ["txt", "pdf", "png", "jpg", "jpeg", "gif", "doc", "docx", "zip", "mp4",
    "mov"]

/-- Model of Python `str.strip()`: drop leading and trailing whitespace,
computed on the code points. -/
def pyStrip (s : String) : String :=
  String.mk
    (((s.data.dropWhile Char.isWhitespace).reverse.dropWhile
      Char.isWhitespace).reverse)

/-- Model of Python `c in s` for one character. -/
def containsChar (s : String) (c : Char) : Bool :=
  s.data.contains c

/-- Split at every occurrence of a one-character separator, model of
Python `str.split(sep)` / `str.rsplit(sep)` as the code uses them with
`"-"`, `":"` and `"."`. -/
def splitChars (c : Char) : List Char → List (List Char)
  | [] => [[]]
  | a :: rest =>
    match splitChars c rest with
    | [] => [[a]]
    | g :: gs => if a = c then [] :: g :: gs else (a :: g) :: gs

/-- String-level wrapper of `splitChars`. -/
def splitOnChar (c : Char) (s : String) : List String :=
  (splitChars c s.data).map String.mk

/-- Model of `int(...)` applied to one `strptime` field: a nonempty
all-digit string, parsed in base ten. -/
def digitsToNat (s : String) : Option Nat :=
  if s.data ≠ [] ∧ s.data.all Char.isDigit then
    some (s.data.foldl (fun acc ch => acc * 10 + (ch.toNat - 48)) 0)
  else none

/-- Lowercase one ASCII character. -/
def lowerChar (ch : Char) : Char :=
  if 'A' ≤ ch ∧ ch ≤ 'Z' then Char.ofNat (ch.toNat + 32) else ch

/-- Model of `str.lower()`. -/
def strLower (s : String) : String :=
  String.mk (s.data.map lowerChar)

/-- Model of `allowed_file`: the file name has a dot and the part after the
last dot, lowercased, is in the allow list. -/
def allowed_file (filename : String) : Bool :=
  containsChar filename '.' &&
    ALLOWED_EXTENSIONS.contains
      (strLower ((splitOnChar '.' filename).getLastD ""))

/-- Model of `datetime.strptime(s, "%Y-%m-%d")`: three dash-separated
numeric fields with the month and day in range. -/
def parseDate (s : String) : Option (Nat × Nat × Nat) :=
  match splitOnChar '-' s with
  | [y, m, d] =>
    match digitsToNat y, digitsToNat m, digitsToNat d with
    | some yn, some mn, some dn =>
      if 1 ≤ mn && mn ≤ 12 && 1 ≤ dn && dn ≤ 31 then some (yn, mn, dn)
      else none
    | _, _, _ => none
  | _ => none

/-- Model of `datetime.strptime(s, "%H:%M")`. -/
def parseTime (s : String) : Option (Nat × Nat) :=
  match splitOnChar ':' s with
  | [h, mi] =>
    match digitsToNat h, digitsToNat mi with
    | some hn, some min_n =>
      if hn ≤ 23 && min_n ≤ 59 then some (hn, min_n) else none
    | _, _ => none
  | _ => none

/-- An instant on the single IST timeline: a strictly monotone injection of
valid (date, time) tuples.  Both the unlock instant and "now" are anchored
to the fixed `Asia/Kolkata` zone by the code (`ist.localize` /
`datetime.now(ist)`), so one totally ordered timeline is faithful; the
claims use only determinism and order of instants, not calendar
day-counts. -/
def toInstant (y mo d h mi : Nat) : Nat :=
  (((y * 12 + (mo - 1)) * 31 + (d - 1)) * 24 + h) * 60 + mi

/-- Model of `ist.localize(datetime.strptime(f"{unlock_date} {unlock_time}",
"%Y-%m-%d %H:%M"))`: `none` is the `ValueError` path. -/
def parseDateTime (unlock_date unlock_time : String) : Option Nat :=
  match parseDate unlock_date, parseTime unlock_time with
  | some (y, mo, d), some (h, mi) => some (toInstant y mo d h mi)
  | _, _ => none

/-- The JSON body the dashboard POST handler returns. -/
structure DashResponse where
  success : Bool
  message : String
  job_id : Option String := none
  capsule_saved : Option Bool := none
deriving Repr, DecidableEq

/-- Delete every path in `fs` from the upload folder (the
`for f in files: if os.path.exists(f): os.remove(f)` cleanup loops). -/
def removeFiles (fs : List String) (uploads : List String) : List String :=
  uploads.filter (fun p => p ∉ fs)

/-- The job id the handler generates:
`f"capsule_{datetime.now().timestamp()}_{recipient_email}"`. -/
def genJobId (env : CreateEnv) (recipient_email : String) : String :=
  "capsule_" ++ env.jobIdTs ++ "_" ++ recipient_email

/-- The saved path of one accepted upload:
`os.path.join(UPLOAD_FOLDER, f"{timestamp}_{filename}")`
(`secure_filename` is modelled as the identity on the names considered). -/
def uploadPath (env : CreateEnv) (filename : String) : String :=
  "uploads/" ++ env.fileTs ++ "_" ++ filename

/-- The paths saved for one request: each submitted file with a nonempty
allow-listed name is written to the upload folder. -/
def savedUploads (env : CreateEnv) (uploadNames : List String) :
    List String :=
  (uploadNames.filter (fun fn => fn != "" && allowed_file fn)).map
    (uploadPath env)

/-- Model of the `dashboard` POST handler: field validation, upload saving,
date parsing, the past-instant check with its cleanup, capsule persistence,
scheduler registration, and the exception handler that cleans up uploads
when `add_job` raises (`ConflictingIdError` reaches the generic `except`).
`uploadNames` are the submitted file names. -/
def dashboard_post (env : CreateEnv) (recipient_email message unlock_date
    unlock_time : String) (uploadNames : List String) (st : AppState) :
    DashResponse × AppState :=
  let recipient_email := pyStrip recipient_email
  let message := pyStrip message
  let unlock_date := pyStrip unlock_date
  let unlock_time := pyStrip unlock_time
  if recipient_email = "" || message = "" || unlock_date = "" ||
      unlock_time = "" then
    ({ success := false, message := "Please fill all fields" }, st)
  else if !(containsChar recipient_email '@') then
    ({ success := false, message := "Invalid email address" }, st)
  else
    let files := savedUploads env uploadNames
    let st1 := { st with uploads := st.uploads ++ files }
    match parseDateTime unlock_date unlock_time with
    | none =>
      ({ success := false, message := "Invalid date or time format" },
        { st1 with uploads := removeFiles files st1.uploads })
    | some send_datetime =>
      if send_datetime ≤ env.now then
        ({ success := false,
           message := "Scheduled time must be in the future!" },
          { st1 with uploads := removeFiles files st1.uploads })
      else
        let job_id := genJobId env recipient_email
        let saveRes := save_encrypted_capsule env recipient_email message
          unlock_date unlock_time files job_id st1
        let capsule_path := saveRes.1
        let st2 := saveRes.2
        match addJob st2.jobs job_id send_datetime with
        | none =>
          ({ success := false, message := "Error: ConflictingIdError" },
            { st2 with uploads := removeFiles files st2.uploads })
        | some jobs' =>
          ({ success := true,
             message := "Time Capsule scheduled successfully!",
             job_id := some job_id,
             capsule_saved := some capsule_path.isSome },
            { st2 with jobs := jobs' })

/-! ### Store lemmas -/

theorem find?_filter_ne_none (s : List (String × List Nat)) (n : String) :
    (s.filter (fun e => e.1 ≠ n)).find? (fun e => e.1 == n) = none := by
  apply List.find?_eq_none.mpr
  intro e he
  have h2 := (List.mem_filter.mp he).2
  simp at h2 ⊢
  exact h2

theorem lookupStore_setStore_self (s : List (String × List Nat))
    (n : String) (v : List Nat) :
    lookupStore (setStore s n v) n = some v := by
  unfold lookupStore setStore
  rw [List.find?_append, find?_filter_ne_none]
  simp [List.find?]

/-- Reading back a capsule after `update_capsule_status`: when the record
existed and decrypted to `d`, the stored record now decrypts to `d` with
the new status and `sent_at` set to the update-time clock reading. -/
theorem load_update_capsule_status (nowIso : String) (encTs encIv : Nat)
    (job_id status : String) (st : AppState) (d : CapsuleData)
    (h : load_encrypted_capsule st.capsules (capsuleName job_id) = some d) :
    load_encrypted_capsule
        (update_capsule_status nowIso encTs encIv job_id status st).capsules
        (capsuleName job_id)
      = some { d with status := status, sent_at := some nowIso } := by
  unfold load_encrypted_capsule at h
  cases hl : lookupStore st.capsules (capsuleName job_id) with
  | none => rw [hl] at h; exact absurd h (by simp)
  | some bs =>
    rw [hl] at h
    have h' : decrypt_capsule_data bs = some d := h
    simp only [update_capsule_status, hl, h']
    simp [load_encrypted_capsule, lookupStore_setStore_self,
      decrypt_encrypt_capsule_data]

/-- `update_capsule_status` never touches the upload folder. -/
theorem update_capsule_status_uploads (nowIso : String) (encTs encIv : Nat)
    (job_id status : String) (st : AppState) :
    (update_capsule_status nowIso encTs encIv job_id status st).uploads
      = st.uploads := by
  unfold update_capsule_status
  cases hl : lookupStore st.capsules (capsuleName job_id) with
  | none => rfl
  | some bs =>
    cases hd : decrypt_capsule_data bs with
    | none => simp [hd]
    | some d => simp [hd]

/-- A concrete capsule record used by closed witnesses and counterexamples. -/
def sampleCapsule : CapsuleData :=
  { recipient_email := "a@b.com", message := "hello",
    unlock_date := "2030-01-01", unlock_time := "00:00", files := [],
    created_at := "2026-01-01T00:00:00", job_id := "j1",
    status := "scheduled", sent_at := none }

/-! ### Claims -/

/-- An empty world: no uploads, no capsules, no scheduled jobs. -/
def emptyState : AppState := { uploads := [], capsules := [], jobs := [] }

/-- A concrete creation-time environment for closed witnesses. -/
def sampleEnv : CreateEnv :=
  { now := 0, nowIso := "2026-01-01T00:00:00", jobIdTs := "1",
    fileTs := "20260101_000000", encTs := 0, encIv := 0, saveOk := true }

/-- The record `save_encrypted_capsule` builds before encrypting (status
`"scheduled"`, no `sent_at` yet). -/
def scheduledRecord (recipient_email message unlock_date unlock_time :
    String) (files : List String) (created_at job_id : String) :
    CapsuleData :=
  { recipient_email := recipient_email, message := message,
    unlock_date := unlock_date, unlock_time := unlock_time, files := files,
    created_at := created_at, job_id := job_id, status := "scheduled",
    sent_at := none }

/-- C2: decrypting the result of encrypting any capsule record returns the
identical record, and a capsule created by `save_encrypted_capsule` (when
the write succeeds) and immediately loaded back has status `"scheduled"`
and every input field (recipient, message, unlock date/time, files)
unchanged. -/
theorem create_then_get_roundtrip (env : CreateEnv)
    (recipient_email message unlock_date unlock_time : String)
    (files : List String) (job_id : String) (st : AppState)
    (h : env.saveOk = true) :
    (∀ d : CapsuleData,
      decrypt_capsule_data (encrypt_capsule_data env.encTs env.encIv d)
        = some d) ∧
    (save_encrypted_capsule env recipient_email message unlock_date
        unlock_time files job_id st).1
      = some ("capsules/" ++ capsuleName job_id) ∧
    load_encrypted_capsule (save_encrypted_capsule env recipient_email
        message unlock_date unlock_time files job_id st).2.capsules
        (capsuleName job_id)
      = some (scheduledRecord recipient_email message unlock_date
          unlock_time files env.nowIso job_id) := by
  refine ⟨fun d => decrypt_encrypt_capsule_data _ _ d, ?_, ?_⟩
  · simp [save_encrypted_capsule, h]
  · simp [save_encrypted_capsule, h, load_encrypted_capsule,
      lookupStore_setStore_self, decrypt_encrypt_capsule_data,
      scheduledRecord]

theorem create_then_get_roundtrip_witness :
    sampleEnv.saveOk = true ∧
    ((∀ d : CapsuleData,
      decrypt_capsule_data
          (encrypt_capsule_data sampleEnv.encTs sampleEnv.encIv d)
        = some d) ∧
    (save_encrypted_capsule sampleEnv "a@b.com" "hello" "2030-01-01"
        "00:00" [] "j1" emptyState).1
      = some ("capsules/" ++ capsuleName "j1") ∧
    load_encrypted_capsule (save_encrypted_capsule sampleEnv "a@b.com"
        "hello" "2030-01-01" "00:00" [] "j1" emptyState).2.capsules
        (capsuleName "j1")
      = some (scheduledRecord "a@b.com" "hello" "2030-01-01" "00:00" []
          sampleEnv.nowIso "j1")) :=
  ⟨rfl, create_then_get_roundtrip sampleEnv "a@b.com" "hello" "2030-01-01"
    "00:00" [] "j1" emptyState rfl⟩

/-- C10: `update_capsule_status` on an existing, decryptable capsule record
sets `sent_at` to the current time for every new status value — including
`"failed"` — and leaves every field other than `status` and `sent_at`
unchanged. -/
theorem update_status_always_sets_sent_at (nowIso : String)
    (encTs encIv : Nat) (job_id status : String) (st : AppState)
    (d : CapsuleData)
    (h : load_encrypted_capsule st.capsules (capsuleName job_id) = some d) :
    load_encrypted_capsule
        (update_capsule_status nowIso encTs encIv job_id status st).capsules
        (capsuleName job_id)
      = some { d with status := status, sent_at := some nowIso } :=
  load_update_capsule_status nowIso encTs encIv job_id status st d h

/-- A one-capsule world holding the encryption of `sampleCapsule`. -/
def oneCapsuleState : AppState :=
  { uploads := [],
    capsules := setStore [] (capsuleName "j1")
      (encrypt_capsule_data 0 0 sampleCapsule),
    jobs := [] }

/-- The expected record after a failed-dispatch status update of
`sampleCapsule`. -/
def sampleFailedCapsule : CapsuleData :=
  { sampleCapsule with status := "failed", sent_at := some "2026-02-02T00:00:00" }

theorem update_status_always_sets_sent_at_witness :
    load_encrypted_capsule oneCapsuleState.capsules (capsuleName "j1")
      = some sampleCapsule ∧
    load_encrypted_capsule
        (update_capsule_status "2026-02-02T00:00:00" 3 4 "j1" "failed"
          oneCapsuleState).capsules (capsuleName "j1")
      = some sampleFailedCapsule :=
  ⟨by simp [oneCapsuleState, load_encrypted_capsule,
      lookupStore_setStore_self, decrypt_encrypt_capsule_data],
    update_status_always_sets_sent_at "2026-02-02T00:00:00" 3 4 "j1"
      "failed" oneCapsuleState sampleCapsule
      (by simp [oneCapsuleState, load_encrypted_capsule,
        lookupStore_setStore_self, decrypt_encrypt_capsule_data])⟩

/-- C5 counterexample: a stored `.enc` record whose decryption fails (an
empty/truncated token) is silently dropped by the listing — the output is
identical to that of a store in which the record does not exist at all, and
the route reports it as nothing rather than as unavailable. -/
theorem list_capsules_treats_undecryptable_as_absent :
    decrypt_capsule_data ([] : List Nat) = none ∧
    list_capsules [("capsule_x.enc", ([] : List Nat))] = list_capsules [] ∧
    list_capsules [("capsule_x.enc", ([] : List Nat))] = [] := by
  refine ⟨rfl, ?_, ?_⟩ <;> decide

/-- C5 amended: on the listing read path, a stored capsule record whose
decryption fails is silently omitted: the listing of a store containing it
equals the listing of the store without it, so a decrypt failure is
indistinguishable from the record not existing. -/
theorem list_capsules_skips_undecryptable (name : String) (bs : List Nat)
    (store : List (String × List Nat))
    (h : decrypt_capsule_data bs = none) :
    list_capsules ((name, bs) :: store) = list_capsules store := by
  by_cases he : endsWithEnc name = true
  · simp [list_capsules, List.filter_cons, he, List.filterMap_cons, h]
  · simp [list_capsules, List.filter_cons, he]

theorem list_capsules_skips_undecryptable_witness :
    decrypt_capsule_data ([] : List Nat) = none ∧
    list_capsules (("capsule_j2.enc", ([] : List Nat)) ::
        [(capsuleName "j1", encrypt_capsule_data 0 0 sampleCapsule)])
      = list_capsules
          [(capsuleName "j1", encrypt_capsule_data 0 0 sampleCapsule)] :=
  ⟨rfl, list_capsules_skips_undecryptable "capsule_j2.enc" []
    [(capsuleName "j1", encrypt_capsule_data 0 0 sampleCapsule)] rfl⟩

/-- C6 counterexample: two encryptions of the same payload under the same
derived key but different drawn IVs (which is what two runs of
`encrypt_capsule_data` do — Fernet draws a fresh random IV per call)
produce different ciphertext bytes. -/
theorem encrypt_not_deterministic_across_runs :
    encrypt_capsule_data 0 0 sampleCapsule
      ≠ encrypt_capsule_data 0 1 sampleCapsule := by
  decide

/-- C6 amended: encryption is deterministic in the payload together with
the drawn timestamp and IV — two encryptions of the same payload under the
same derived key coincide exactly when they drew the same timestamp and IV
(the IV is embedded verbatim in the token) — and every encryption decrypts
back to the payload. -/
theorem encrypt_deterministic_in_payload_and_nonce (d : CapsuleData)
    (ts₁ iv₁ ts₂ iv₂ : Nat) :
    (encrypt_capsule_data ts₁ iv₁ d = encrypt_capsule_data ts₂ iv₂ d ↔
      ts₁ = ts₂ ∧ iv₁ = iv₂) ∧
    decrypt_capsule_data (encrypt_capsule_data ts₁ iv₁ d) = some d := by
  constructor
  · constructor
    · intro h
      simp only [encrypt_capsule_data, fernetEncrypt, List.cons_append,
        List.cons.injEq] at h
      exact ⟨h.2.1, h.2.2.1⟩
    · rintro ⟨rfl, rfl⟩
      rfl
  · exact decrypt_encrypt_capsule_data _ _ d

/-- C3: when the SMTP send completes (`ok`), the dispatcher reports
success, the capsule record afterwards has status `"sent"` with `sent_at`
set, and every attachment file that existed on disk at dispatch time (and
was therefore attached) no longer exists on disk. -/
theorem dispatch_success_postcondition (env : DispatchEnv)
    (recipient_email message unlock_date unlock_time : String)
    (files : List String) (j : String) (st : AppState) (d : CapsuleData)
    (hc : env.credsSet = true)
    (hd : load_encrypted_capsule st.capsules (capsuleName j) = some d) :
    ((send_time_capsule_email env .ok recipient_email message unlock_date
        unlock_time (some files) (some j) st).1).1 = true ∧
    load_encrypted_capsule (send_time_capsule_email env .ok recipient_email
        message unlock_date unlock_time (some files) (some j) st).2.capsules
        (capsuleName j)
      = some { d with status := "sent", sent_at := some env.nowIso } ∧
    ∀ f ∈ files, f ∈ st.uploads →
      f ∉ (send_time_capsule_email env .ok recipient_email message
        unlock_date unlock_time (some files) (some j) st).2.uploads := by
  refine ⟨by simp [send_time_capsule_email, hc], ?_, ?_⟩
  · simpa [send_time_capsule_email, hc] using
      load_update_capsule_status env.nowIso env.encTs env.encIv j "sent"
        st d hd
  · intro f hf hfu
    have hup := update_capsule_status_uploads env.nowIso env.encTs env.encIv
      j "sent" st
    simp [send_time_capsule_email, hc, hup, List.mem_filter]
    intro hmem
    exact ⟨hf, hfu⟩

/-- A capsule record with one attachment, for dispatcher witnesses. -/
def sampleCapsuleFiles : CapsuleData :=
  { sampleCapsule with files := ["uploads/f_a.txt"] }

/-- A concrete dispatch-time environment with credentials configured. -/
def dispatchEnvSample : DispatchEnv :=
  { credsSet := true, nowIso := "2026-02-02T00:00:00", encTs := 3, encIv := 4 }

/-- A world at dispatch time: the attachment on disk and the capsule stored. -/
def dispatchState : AppState :=
  { uploads := ["uploads/f_a.txt"],
    capsules := setStore [] (capsuleName "j1")
      (encrypt_capsule_data 0 0 sampleCapsuleFiles),
    jobs := [] }

/-- The record expected after the successful dispatch of the witness. -/
def sampleSentCapsule : CapsuleData :=
  { sampleCapsuleFiles with status := "sent", sent_at := some "2026-02-02T00:00:00" }

theorem dispatch_success_postcondition_witness :
    dispatchEnvSample.credsSet = true ∧
    load_encrypted_capsule dispatchState.capsules (capsuleName "j1")
      = some sampleCapsuleFiles ∧
    (((send_time_capsule_email dispatchEnvSample .ok "a@b.com" "hello"
        "2030-01-01" "00:00" (some ["uploads/f_a.txt"]) (some "j1")
        dispatchState).1).1 = true ∧
    load_encrypted_capsule (send_time_capsule_email dispatchEnvSample .ok
        "a@b.com" "hello" "2030-01-01" "00:00" (some ["uploads/f_a.txt"])
        (some "j1") dispatchState).2.capsules (capsuleName "j1")
      = some sampleSentCapsule ∧
    ∀ f ∈ ["uploads/f_a.txt"], f ∈ dispatchState.uploads →
      f ∉ (send_time_capsule_email dispatchEnvSample .ok "a@b.com" "hello"
        "2030-01-01" "00:00" (some ["uploads/f_a.txt"]) (some "j1")
        dispatchState).2.uploads) :=
  ⟨rfl,
    by simp [dispatchState, load_encrypted_capsule, lookupStore_setStore_self,
      decrypt_encrypt_capsule_data],
    dispatch_success_postcondition dispatchEnvSample "a@b.com" "hello"
      "2030-01-01" "00:00" ["uploads/f_a.txt"] "j1" dispatchState
      sampleCapsuleFiles rfl
      (by simp [dispatchState, load_encrypted_capsule,
        lookupStore_setStore_self, decrypt_encrypt_capsule_data])⟩

/-- C4: when the SMTP interaction fails (authentication error, SMTP error,
or any other exception during compose/send), the dispatcher reports
failure, the capsule record afterwards has status `"failed"`, and the
upload folder is untouched — every attachment file that existed before
dispatch still exists. -/
theorem dispatch_failure_postcondition (env : DispatchEnv) (o : SendOutcome)
    (recipient_email message unlock_date unlock_time : String)
    (files : List String) (j : String) (st : AppState) (d : CapsuleData)
    (hc : env.credsSet = true) (ho : o ≠ SendOutcome.ok)
    (hd : load_encrypted_capsule st.capsules (capsuleName j) = some d) :
    ((send_time_capsule_email env o recipient_email message unlock_date
        unlock_time (some files) (some j) st).1).1 = false ∧
    load_encrypted_capsule (send_time_capsule_email env o recipient_email
        message unlock_date unlock_time (some files) (some j) st).2.capsules
        (capsuleName j)
      = some { d with status := "failed", sent_at := some env.nowIso } ∧
    (send_time_capsule_email env o recipient_email message unlock_date
        unlock_time (some files) (some j) st).2.uploads = st.uploads := by
  have hload := load_update_capsule_status env.nowIso env.encTs env.encIv
    j "failed" st d hd
  have hup := update_capsule_status_uploads env.nowIso env.encTs env.encIv
    j "failed" st
  cases o with
  | ok => exact absurd rfl ho
  | authError =>
    exact ⟨by simp [send_time_capsule_email, hc],
      by simpa [send_time_capsule_email, hc] using hload,
      by simpa [send_time_capsule_email, hc] using hup⟩
  | smtpError =>
    exact ⟨by simp [send_time_capsule_email, hc],
      by simpa [send_time_capsule_email, hc] using hload,
      by simpa [send_time_capsule_email, hc] using hup⟩
  | otherError =>
    exact ⟨by simp [send_time_capsule_email, hc],
      by simpa [send_time_capsule_email, hc] using hload,
      by simpa [send_time_capsule_email, hc] using hup⟩

/-- The record expected after the failed dispatch of the witness. -/
def sampleFailedFiles : CapsuleData :=
  { sampleCapsuleFiles with status := "failed", sent_at := some "2026-02-02T00:00:00" }

theorem dispatch_failure_postcondition_witness :
    dispatchEnvSample.credsSet = true ∧
    SendOutcome.authError ≠ SendOutcome.ok ∧
    load_encrypted_capsule dispatchState.capsules (capsuleName "j1")
      = some sampleCapsuleFiles ∧
    (((send_time_capsule_email dispatchEnvSample .authError "a@b.com"
        "hello" "2030-01-01" "00:00" (some ["uploads/f_a.txt"]) (some "j1")
        dispatchState).1).1 = false ∧
    load_encrypted_capsule (send_time_capsule_email dispatchEnvSample
        .authError "a@b.com" "hello" "2030-01-01" "00:00"
        (some ["uploads/f_a.txt"]) (some "j1") dispatchState).2.capsules
        (capsuleName "j1")
      = some sampleFailedFiles ∧
    (send_time_capsule_email dispatchEnvSample .authError "a@b.com" "hello"
        "2030-01-01" "00:00" (some ["uploads/f_a.txt"]) (some "j1")
        dispatchState).2.uploads = dispatchState.uploads) :=
  ⟨rfl, by decide,
    by simp [dispatchState, load_encrypted_capsule, lookupStore_setStore_self,
      decrypt_encrypt_capsule_data],
    dispatch_failure_postcondition dispatchEnvSample .authError "a@b.com"
      "hello" "2030-01-01" "00:00" ["uploads/f_a.txt"] "j1" dispatchState
      sampleCapsuleFiles rfl (by decide)
      (by simp [dispatchState, load_encrypted_capsule,
        lookupStore_setStore_self, decrypt_encrypt_capsule_data])⟩

/-- `save_encrypted_capsule` never touches the scheduler's job table. -/
theorem save_encrypted_capsule_jobs (env : CreateEnv)
    (r m ud ut : String) (fs : List String) (j : String) (st : AppState) :
    (save_encrypted_capsule env r m ud ut fs j st).2.jobs = st.jobs := by
  cases h : env.saveOk <;> simp [save_encrypted_capsule, h]

/-- A job id that resolves in the table makes `any` over the table true. -/
theorem any_of_lookupJob (jobs : List (String × Nat)) (id : String)
    (t0 : Nat) (h : lookupJob jobs id = some t0) :
    jobs.any (fun e => e.1 == id) = true := by
  unfold lookupJob at h
  cases hf : jobs.find? (fun e => e.1 == id) with
  | none => rw [hf] at h; exact absurd h (by simp)
  | some e =>
    have hp := List.find?_some hf
    exact List.any_eq_true.mpr ⟨e, List.mem_of_find?_eq_some hf, hp⟩

/-- C7: a creation request whose unlock instant, on the fixed IST timeline,
is equal to or earlier than the current instant is rejected: the response
reports failure, no capsule record is written, no job is scheduled, and
every attachment file already saved for the request is deleted. -/
theorem past_unlock_rejected (env : CreateEnv)
    (recipient_email message unlock_date unlock_time : String)
    (uploadNames : List String) (st : AppState) (t : Nat)
    (h1 : pyStrip recipient_email ≠ "")
    (h2 : pyStrip message ≠ "")
    (h3 : pyStrip unlock_date ≠ "")
    (h4 : pyStrip unlock_time ≠ "")
    (h5 : containsChar (pyStrip recipient_email) '@' = true)
    (h6 : parseDateTime (pyStrip unlock_date) (pyStrip unlock_time)
      = some t)
    (h7 : t ≤ env.now) :
    (dashboard_post env recipient_email message unlock_date unlock_time
        uploadNames st).1.success = false ∧
    (dashboard_post env recipient_email message unlock_date unlock_time
        uploadNames st).2.capsules = st.capsules ∧
    (dashboard_post env recipient_email message unlock_date unlock_time
        uploadNames st).2.jobs = st.jobs ∧
    ∀ p ∈ savedUploads env uploadNames,
      p ∉ (dashboard_post env recipient_email message unlock_date
        unlock_time uploadNames st).2.uploads := by
  refine ⟨?_, ?_, ?_, ?_⟩
  · simp [dashboard_post, h1, h2, h3, h4, h5, h6, h7]
  · simp [dashboard_post, h1, h2, h3, h4, h5, h6, h7]
  · simp [dashboard_post, h1, h2, h3, h4, h5, h6, h7]
  · intro p hp
    simp [dashboard_post, h1, h2, h3, h4, h5, h6, h7, removeFiles,
      List.mem_filter]
    intro hmem
    exact hp

/-- A creation-time environment whose clock is far past the sample unlock
instant. -/
def lateEnv : CreateEnv :=
  { now := 2000000000, nowIso := "2100-01-01T00:00:00", jobIdTs := "9",
    fileTs := "20991231_235959", encTs := 0, encIv := 0, saveOk := true }

theorem past_unlock_rejected_witness :
    (pyStrip "a@b.com" ≠ "" ∧ pyStrip "hello" ≠ "" ∧
     pyStrip "2020-01-01" ≠ "" ∧ pyStrip "00:00" ≠ "" ∧
     containsChar (pyStrip "a@b.com") '@' = true ∧
     parseDateTime (pyStrip "2020-01-01") (pyStrip "00:00")
       = some 1082073600 ∧
     1082073600 ≤ lateEnv.now) ∧
    ((dashboard_post lateEnv "a@b.com" "hello" "2020-01-01" "00:00"
        ["a.txt"] emptyState).1.success = false ∧
    (dashboard_post lateEnv "a@b.com" "hello" "2020-01-01" "00:00"
        ["a.txt"] emptyState).2.capsules = emptyState.capsules ∧
    (dashboard_post lateEnv "a@b.com" "hello" "2020-01-01" "00:00"
        ["a.txt"] emptyState).2.jobs = emptyState.jobs ∧
    ∀ p ∈ savedUploads lateEnv ["a.txt"],
      p ∉ (dashboard_post lateEnv "a@b.com" "hello" "2020-01-01" "00:00"
        ["a.txt"] emptyState).2.uploads) :=
  ⟨⟨by decide, by decide, by decide, by decide, by decide, by decide,
      by decide⟩,
    past_unlock_rejected lateEnv "a@b.com" "hello" "2020-01-01" "00:00"
      ["a.txt"] emptyState 1082073600 (by decide) (by decide) (by decide)
      (by decide) (by decide) (by decide) (by decide)⟩

/-- C8: a second schedule registration under an already-registered job id
fails — the handler reports failure — does not overwrite the existing
entry, and leaves the first entry's fire instant unchanged. -/
theorem duplicate_job_id_rejected (env : CreateEnv)
    (recipient_email message unlock_date unlock_time : String)
    (uploadNames : List String) (st : AppState) (t t0 : Nat)
    (h1 : pyStrip recipient_email ≠ "")
    (h2 : pyStrip message ≠ "")
    (h3 : pyStrip unlock_date ≠ "")
    (h4 : pyStrip unlock_time ≠ "")
    (h5 : containsChar (pyStrip recipient_email) '@' = true)
    (h6 : parseDateTime (pyStrip unlock_date) (pyStrip unlock_time)
      = some t)
    (h7 : env.now < t)
    (h8 : lookupJob st.jobs (genJobId env (pyStrip recipient_email))
      = some t0) :
    (dashboard_post env recipient_email message unlock_date unlock_time
        uploadNames st).1.success = false ∧
    (dashboard_post env recipient_email message unlock_date unlock_time
        uploadNames st).2.jobs = st.jobs ∧
    lookupJob (dashboard_post env recipient_email message unlock_date
        unlock_time uploadNames st).2.jobs
        (genJobId env (pyStrip recipient_email)) = some t0 := by
  have h7' : ¬ t ≤ env.now := Nat.not_le.mpr h7
  have hany := any_of_lookupJob st.jobs
    (genJobId env (pyStrip recipient_email)) t0 h8
  refine ⟨?_, ?_, ?_⟩ <;>
    simp [dashboard_post, h1, h2, h3, h4, h5, h6, h7', addJob,
      save_encrypted_capsule_jobs, hany, h8]

/-- A world in which the witness's generated job id is already scheduled
to fire at instant 999. -/
def dupJobState : AppState :=
  { uploads := [], capsules := [],
    jobs := [("capsule_1_a@b.com", 999)] }

theorem duplicate_job_id_rejected_witness :
    (pyStrip "a@b.com" ≠ "" ∧ pyStrip "hello" ≠ "" ∧
     pyStrip "2030-01-01" ≠ "" ∧ pyStrip "00:05" ≠ "" ∧
     containsChar (pyStrip "a@b.com") '@' = true ∧
     parseDateTime (pyStrip "2030-01-01") (pyStrip "00:05")
       = some 1087430405 ∧
     sampleEnv.now < 1087430405 ∧
     lookupJob dupJobState.jobs (genJobId sampleEnv (pyStrip "a@b.com"))
       = some 999) ∧
    ((dashboard_post sampleEnv "a@b.com" "hello" "2030-01-01" "00:05" []
        dupJobState).1.success = false ∧
    (dashboard_post sampleEnv "a@b.com" "hello" "2030-01-01" "00:05" []
        dupJobState).2.jobs = dupJobState.jobs ∧
    lookupJob (dashboard_post sampleEnv "a@b.com" "hello" "2030-01-01"
        "00:05" [] dupJobState).2.jobs
        (genJobId sampleEnv (pyStrip "a@b.com")) = some 999) :=
  ⟨⟨by decide, by decide, by decide, by decide, by decide, by decide,
      by decide, by decide⟩,
    duplicate_job_id_rejected sampleEnv "a@b.com" "hello" "2030-01-01"
      "00:05" [] dupJobState 1087430405 999 (by decide) (by decide)
      (by decide) (by decide) (by decide) (by decide) (by decide)
      (by decide)⟩

/-- A creation-time environment whose capsule file write fails. -/
def noSaveEnv : CreateEnv :=
  { now := 0, nowIso := "t", jobIdTs := "1", fileTs := "f", encTs := 0,
    encIv := 0, saveOk := false }

/-- C1 counterexample: a concrete creation request on which
`save_encrypted_capsule` persists nothing (`capsule_saved = some false`,
capsule folder left empty), yet the scheduler registration is performed
(the job table gains the entry) and the request reports success — the
schedule is not aborted. -/
theorem add_job_despite_failed_persist :
    (dashboard_post noSaveEnv "a@b" "m" "2030-01-01" "00:05" []
        emptyState).2.capsules = [] ∧
    (dashboard_post noSaveEnv "a@b" "m" "2030-01-01" "00:05" []
        emptyState).1.capsule_saved = some false ∧
    (dashboard_post noSaveEnv "a@b" "m" "2030-01-01" "00:05" []
        emptyState).2.jobs = [("capsule_1_a@b", 1087430405)] ∧
    (dashboard_post noSaveEnv "a@b" "m" "2030-01-01" "00:05" []
        emptyState).1.success = true := by
  refine ⟨?_, ?_, ?_, ?_⟩ <;> decide

/-- C1 amended: when persisting the encrypted capsule record fails at
creation time, the handler does not abort — `scheduler.add_job` is still
performed (the job table gains the entry at the parsed fire instant), no
capsule record is stored, and the response reports success with
`capsule_saved = false`. -/
theorem schedule_proceeds_without_persisted_record (env : CreateEnv)
    (recipient_email message unlock_date unlock_time : String)
    (uploadNames : List String) (st : AppState) (t : Nat)
    (h1 : pyStrip recipient_email ≠ "")
    (h2 : pyStrip message ≠ "")
    (h3 : pyStrip unlock_date ≠ "")
    (h4 : pyStrip unlock_time ≠ "")
    (h5 : containsChar (pyStrip recipient_email) '@' = true)
    (h6 : parseDateTime (pyStrip unlock_date) (pyStrip unlock_time)
      = some t)
    (h7 : env.now < t)
    (h8 : env.saveOk = false)
    (h9 : st.jobs.any
      (fun e => e.1 == genJobId env (pyStrip recipient_email)) = false) :
    (dashboard_post env recipient_email message unlock_date unlock_time
        uploadNames st).1.success = true ∧
    (dashboard_post env recipient_email message unlock_date unlock_time
        uploadNames st).1.capsule_saved = some false ∧
    (dashboard_post env recipient_email message unlock_date unlock_time
        uploadNames st).2.capsules = st.capsules ∧
    (dashboard_post env recipient_email message unlock_date unlock_time
        uploadNames st).2.jobs
      = st.jobs ++ [(genJobId env (pyStrip recipient_email), t)] := by
  have h7' : ¬ t ≤ env.now := Nat.not_le.mpr h7
  refine ⟨?_, ?_, ?_, ?_⟩ <;>
    simp [dashboard_post, h1, h2, h3, h4, h5, h6, h7', h8, h9, addJob,
      save_encrypted_capsule]

theorem schedule_proceeds_without_persisted_record_witness :
    (pyStrip "a@b" ≠ "" ∧ pyStrip "m" ≠ "" ∧
     pyStrip "2030-01-01" ≠ "" ∧ pyStrip "00:05" ≠ "" ∧
     containsChar (pyStrip "a@b") '@' = true ∧
     parseDateTime (pyStrip "2030-01-01") (pyStrip "00:05")
       = some 1087430405 ∧
     noSaveEnv.now < 1087430405 ∧ noSaveEnv.saveOk = false ∧
     emptyState.jobs.any
       (fun e => e.1 == genJobId noSaveEnv (pyStrip "a@b")) = false) ∧
    ((dashboard_post noSaveEnv "a@b" "m" "2030-01-01" "00:05" []
        emptyState).1.success = true ∧
    (dashboard_post noSaveEnv "a@b" "m" "2030-01-01" "00:05" []
        emptyState).1.capsule_saved = some false ∧
    (dashboard_post noSaveEnv "a@b" "m" "2030-01-01" "00:05" []
        emptyState).2.capsules = emptyState.capsules ∧
    (dashboard_post noSaveEnv "a@b" "m" "2030-01-01" "00:05" []
        emptyState).2.jobs
      = emptyState.jobs ++ [(genJobId noSaveEnv (pyStrip "a@b"),
          1087430405)]) :=
  ⟨⟨by decide, by decide, by decide, by decide, by decide, by decide,
      by decide, by decide, by decide⟩,
    schedule_proceeds_without_persisted_record noSaveEnv "a@b" "m"
      "2030-01-01" "00:05" [] emptyState 1087430405 (by decide) (by decide)
      (by decide) (by decide) (by decide) (by decide) (by decide)
      (by decide) (by decide)⟩

/-! ### C9: the listing never exposes the message body -/

/-- Two capsule records that agree on everything except (possibly) the
message body. -/
def sameExceptMessage (a b : CapsuleData) : Prop :=
  a.recipient_email = b.recipient_email ∧ a.unlock_date = b.unlock_date ∧
  a.unlock_time = b.unlock_time ∧ a.files = b.files ∧
  a.created_at = b.created_at ∧ a.job_id = b.job_id ∧
  a.status = b.status ∧ a.sent_at = b.sent_at

/-- Two stored objects with the same file name whose decryptions agree up
to the message body (or both fail). -/
def entryRel (e1 e2 : String × List Nat) : Prop :=
  e1.1 = e2.1 ∧
    ((decrypt_capsule_data e1.2 = none ∧ decrypt_capsule_data e2.2 = none) ∨
     (∃ a b, decrypt_capsule_data e1.2 = some a ∧
       decrypt_capsule_data e2.2 = some b ∧ sameExceptMessage a b))

theorem mkSummary_eq_of_sameExceptMessage (a b : CapsuleData)
    (h : sameExceptMessage a b) : mkSummary a = mkSummary b := by
  obtain ⟨h1, h2, h3, h4, h5, h6, h7, h8⟩ := h
  simp [mkSummary, h1, h2, h3, h4, h5, h6, h7, h8]

theorem list_capsules_cons (e : String × List Nat)
    (s : List (String × List Nat)) :
    list_capsules (e :: s)
      = (if endsWithEnc e.1 = true then
          ((decrypt_capsule_data e.2).map mkSummary).toList else [])
        ++ list_capsules s := by
  by_cases he : endsWithEnc e.1 = true
  · cases hd : decrypt_capsule_data e.2 <;>
      simp [list_capsules, List.filter_cons, he, List.filterMap_cons, hd]
  · simp [list_capsules, List.filter_cons, he]

/-- C9: capsule summaries carry no message body — the summary of a record
is unchanged under any change of its message — and consequently two stores
whose records differ only in their message fields produce identical
listing output. -/
theorem listing_excludes_message_content (s1 s2 : List (String × List Nat))
    (h : List.Forall₂ entryRel s1 s2) :
    (∀ (d : CapsuleData) (m : String),
      mkSummary { d with message := m } = mkSummary d) ∧
    list_capsules s1 = list_capsules s2 := by
  refine ⟨fun d m => rfl, ?_⟩
  induction h with
  | nil => rfl
  | cons h1 hrest ih =>
    obtain ⟨hname, hcase⟩ := h1
    rw [list_capsules_cons, list_capsules_cons, ih, hname]
    congr 1
    rcases hcase with ⟨hn1, hn2⟩ | ⟨a', b', ha, hb, hab⟩
    · simp [hn1, hn2]
    · simp [ha, hb, mkSummary_eq_of_sameExceptMessage a' b' hab]

/-- `sampleCapsule` with a different message body (and a different
encryption nonce in the witness's second store). -/
def otherMessageCapsule : CapsuleData :=
  { sampleCapsule with message := "a completely different secret" }

theorem listing_excludes_message_content_witness :
    List.Forall₂ entryRel
      [(capsuleName "j1", encrypt_capsule_data 0 0 sampleCapsule)]
      [(capsuleName "j1", encrypt_capsule_data 5 6 otherMessageCapsule)] ∧
    ((∀ (d : CapsuleData) (m : String),
      mkSummary { d with message := m } = mkSummary d) ∧
    list_capsules
        [(capsuleName "j1", encrypt_capsule_data 0 0 sampleCapsule)]
      = list_capsules
        [(capsuleName "j1", encrypt_capsule_data 5 6 otherMessageCapsule)]) :=
  ⟨List.Forall₂.cons
    ⟨rfl, Or.inr ⟨sampleCapsule, otherMessageCapsule,
      decrypt_encrypt_capsule_data 0 0 sampleCapsule,
      decrypt_encrypt_capsule_data 5 6 otherMessageCapsule,
      ⟨rfl, rfl, rfl, rfl, rfl, rfl, rfl, rfl⟩⟩⟩ List.Forall₂.nil,
    listing_excludes_message_content
      [(capsuleName "j1", encrypt_capsule_data 0 0 sampleCapsule)]
      [(capsuleName "j1", encrypt_capsule_data 5 6 otherMessageCapsule)]
      (List.Forall₂.cons
        ⟨rfl, Or.inr ⟨sampleCapsule, otherMessageCapsule,
          decrypt_encrypt_capsule_data 0 0 sampleCapsule,
          decrypt_encrypt_capsule_data 5 6 otherMessageCapsule,
          ⟨rfl, rfl, rfl, rfl, rfl, rfl, rfl, rfl⟩⟩⟩ List.Forall₂.nil)⟩
